import Mathlib

/-!
Shallow embedding of `src/telegram_antispam/__main__.py` (a Telegram
anti-spam bot) and proofs about its trust-gate, word-scanner, moderation
and admin-command logic.

Modelling choices, all taken from the source:
* Timestamps are integer seconds (UTC); `timedelta(days=1)` is `oneDay`.
  Handlers receive the current time `now` as a parameter (the source calls
  `datetime.now(UTC)` during the handler; the at-most-two calls in one
  handler run microseconds apart and are modelled as the same instant).
* `context.chat_data` is a Python dict holding the string keys
  `"user_joined_at"` and `"user_message_count"` (each a dict from integer
  user id to a value) and — only because of the write on line 39 of the
  source, `context.chat_data[user_id] = datetime.now(UTC)` — possibly
  integer keys as well.  Integer keys never collide with the two string
  keys, so `ChatData` has three independent fields; an absent sub-dict is
  observationally equal to an empty one (every read uses a `{}` default or
  `setdefault`), so each sub-dict is a total function into `Option`.
* `context.bot_data` holds `"words"` (a Python `set` of strings, modelled
  as `Finset String`; absent ≡ empty, as every read defaults to `set()`)
  and `"owner_id"` (`Option Int`).
* Outbound Telegram calls and user-visible replies are recorded as a list
  of `Action`s in the order the source performs them.  The owner
  notification `send_message` is modelled by its payload: the source
  interpolates exactly the sender's name, the chat title (repr-quoted) and
  the message text into the notification string.  `logger.debug` /
  `logger.info` calls are not modelled; the `logger.warning` for a missing
  owner is, since the spec mentions it.
* Python's substring test `needle in haystack` is `pyIn`; `str.lower()` is
  `pyLower` (per-character lower-casing).
-/

namespace TelegramAntispam

/-- One day in seconds: `timedelta(days=1)` from line 41 of the source. -/
def oneDay : Int := 86400

/-- Python's `str.lower()`: lower-case every character.  Stated on the
underlying character list (extensionally the same as
`String.map Char.toLower`, but reducible by evaluation). -/
def pyLower (s : String) : String :=
  ⟨s.data.map Char.toLower⟩

/-- Does `needle` occur contiguously inside the character list? -/
def containsSub (needle : List Char) : List Char → Bool
  | [] => needle.isEmpty
  | b :: bs => needle.isPrefixOf (b :: bs) || containsSub needle bs

/-- Python's substring containment `needle in haystack` (contiguous). -/
def pyIn (needle haystack : String) : Bool :=
  containsSub needle.data haystack.data

/-- Point update of a dict modelled as a total function into `Option`:
`d[k] = v`. -/
def setKey {α : Type} (f : Int → Option α) (k : Int) (v : α) : Int → Option α :=
  fun q => if q = k then some v else f q

/-- Per-chat state `context.chat_data`.  `userJoinedAt` is the
`"user_joined_at"` sub-dict, `userMessageCount` the `"user_message_count"`
sub-dict, and `intKeyed` the integer-keyed top-level entries that line 39
of the source creates (`context.chat_data[user_id] = ...`). -/
structure ChatData where
  userJoinedAt : Int → Option Int
  userMessageCount : Int → Option Nat
  intKeyed : Int → Option Int

/-- Process-wide state `context.bot_data`: the prohibited-word set
`"words"` and the optional `"owner_id"`. -/
structure BotData where
  words : Finset String
  ownerId : Option Int
deriving DecidableEq

/-- The fields of `update.message` the handlers read. -/
structure Msg where
  chatId : Int
  chatTitle : String
  fromUserId : Int
  fromUserName : String
  text : String

/-- Outbound effects, in the order the source performs them.
`sendMessage` is the owner notification of lines 62–67, modelled by its
payload (owner chat id, sender name, chat title, offending text);
`deleteMessage` is `update.message.delete()`; `banChatMember` is
`context.bot.ban_chat_member(...)`; `replyText` is
`update.message.reply_text(...)`; `logWarning` is the `logger.warning`
call of line 60. -/
inductive Action where
  | sendMessage (chatId : Int) (senderName chatTitle msgText : String)
  | deleteMessage (chatId : Int)
  | banChatMember (chatId userId : Int)
  | replyText (text : String)
  | logWarning (text : String)
deriving DecidableEq

/-- Is an action the owner notification? -/
def Action.isNotify : Action → Bool
  | .sendMessage _ _ _ _ => true
  | _ => false

/-- Result of a message handler: the updated per-chat state and the
outbound actions, in order. -/
structure HandlerResult where
  chatData : ChatData
  actions : List Action

/-- Lines 41–73 of `text_message_handler`: the trust gate and word scan,
after the join-timestamp lookup has produced `t` (`user_joined_at`).
Order of effects and state writes follows the source exactly: the age
check, then `setdefault` of the message count (which materialises the
default `0`), then the count check, then the scan; on a match the owner
notification (or warning), the delete and the ban; on no match the count
increment. -/
def scanGate (cd : ChatData) (bd : BotData) (m : Msg) (now t : Int) :
    HandlerResult :=
  if t < now - oneDay then
    { chatData := cd, actions := [] }
  else if (cd.userMessageCount m.fromUserId).getD 0 ≥ 3 then
    { chatData :=
        { cd with
            userMessageCount := setKey cd.userMessageCount m.fromUserId
              ((cd.userMessageCount m.fromUserId).getD 0) },
      actions := [] }
  else if ∃ w ∈ bd.words, pyIn w (pyLower m.text) = true then
    { chatData :=
        { cd with
            userMessageCount := setKey cd.userMessageCount m.fromUserId
              ((cd.userMessageCount m.fromUserId).getD 0) },
      actions :=
        (match bd.ownerId with
          | none => [Action.logWarning "The bot does not have an owner"]
          | some o => [Action.sendMessage o m.fromUserName m.chatTitle m.text]) ++
        [Action.deleteMessage m.chatId,
         Action.banChatMember m.chatId m.fromUserId] }
  else
    { chatData :=
        { cd with
            userMessageCount := setKey
              (setKey cd.userMessageCount m.fromUserId
                ((cd.userMessageCount m.fromUserId).getD 0))
              m.fromUserId
              ((cd.userMessageCount m.fromUserId).getD 0 + 1) },
      actions := [] }

/-- Lines 30–73 of the source: `text_message_handler`.  Lines 34–39 look up
the join timestamp; when it is absent the source stores `now` under the
top-level integer key `update.message.from_user.id`
(`context.chat_data[update.message.from_user.id] = datetime.now(UTC)`,
line 39) — not inside the `"user_joined_at"` sub-dict — and continues with
`user_joined_at = now`. -/
def text_message_handler (cd : ChatData) (bd : BotData) (m : Msg) (now : Int) :
    HandlerResult :=
  match cd.userJoinedAt m.fromUserId with
  | some t => scanGate cd bd m now t
  | none =>
      scanGate { cd with intKeyed := setKey cd.intKeyed m.fromUserId now }
        bd m now now

/-- Result of the `admin_command` decorator guard (lines 76–89): the
possibly updated bot state, the replies it issued, and whether the wrapped
command body runs. -/
structure GuardResult where
  botData : BotData
  actions : List Action
  runBody : Bool
deriving DecidableEq

/-- Lines 78–87 of the source: the body of the `admin_command` wrapper.
If no owner is recorded, the invoker becomes owner and is informed; then
the invoker is compared against the (possibly just assigned) owner id,
and on mismatch a rejection is replied and the body does not run. -/
def admin_command_guard (bd : BotData) (fromUserId : Int) : GuardResult :=
  let state :=
    match bd.ownerId with
    | none =>
        (fromUserId, { bd with ownerId := some fromUserId },
         [Action.replyText "You are now the owner of the bot."])
    | some o => (o, bd, ([] : List Action))
  if fromUserId ≠ state.1 then
    { botData := state.2.1,
      actions := state.2.2 ++ [Action.replyText "You are not the owner of the bot."],
      runBody := false }
  else
    { botData := state.2.1, actions := state.2.2, runBody := true }

/-- Result of an admin command handler: updated bot state and replies. -/
structure CommandResult where
  botData : BotData
  actions : List Action
deriving DecidableEq

/-- Lines 92–100: `list_command_handler`, wrapped in `admin_command`.
Replies with the prohibited words sorted (`"\n".join(sorted(words))`) or
`"No prohibited words."` when the set is empty. -/
def list_command_handler (bd : BotData) (fromUserId : Int) : CommandResult :=
  let g := admin_command_guard bd fromUserId
  if g.runBody = false then
    { botData := g.botData, actions := g.actions }
  else
    if g.botData.words = ∅ then
      { botData := g.botData,
        actions := g.actions ++ [Action.replyText "No prohibited words."] }
    else
      { botData := g.botData,
        actions := g.actions ++
          [Action.replyText ("Prohibited words:\n" ++
            String.intercalate "\n" (g.botData.words.sort (· ≤ ·)))] }

/-- Lines 103–114: `add_command_handler`, wrapped in `admin_command`.
Requires exactly one argument, lower-cases it, adds it to the word set
(`set.add`, idempotent) and confirms. -/
def add_command_handler (bd : BotData) (fromUserId : Int) (args : List String) :
    CommandResult :=
  let g := admin_command_guard bd fromUserId
  if g.runBody = false then
    { botData := g.botData, actions := g.actions }
  else
    match args with
    | [arg] =>
        let word := pyLower arg
        { botData := { g.botData with words := insert word g.botData.words },
          actions := g.actions ++
            [Action.replyText ("Added prohibited word: " ++ word)] }
    | _ =>
        { botData := g.botData,
          actions := g.actions ++ [Action.replyText "Usage: /add <word>"] }

/-- Lines 117–128: `delete_command_handler`, wrapped in `admin_command`.
Requires exactly one argument, lower-cases it, removes it from the word
set (`set.discard`, silent when absent) and confirms. -/
def delete_command_handler (bd : BotData) (fromUserId : Int) (args : List String) :
    CommandResult :=
  let g := admin_command_guard bd fromUserId
  if g.runBody = false then
    { botData := g.botData, actions := g.actions }
  else
    match args with
    | [arg] =>
        let word := pyLower arg
        { botData := { g.botData with words := g.botData.words.erase word },
          actions := g.actions ++
            [Action.replyText ("Deleted prohibited word: " ++ word)] }
    | _ =>
        { botData := g.botData,
          actions := g.actions ++ [Action.replyText "Usage: /delete <word>"] }

/-! ### Concrete states used to instantiate the theorems -/

/-- A chat with no recorded state at all. -/
def emptyChatData : ChatData :=
  ⟨fun _ => none, fun _ => none, fun _ => none⟩

/-- A chat where user `7` joined at time `0` and nothing else is recorded. -/
def cdA : ChatData :=
  ⟨fun q => if q = 7 then some 0 else none, fun _ => none, fun _ => none⟩

/-- Bot state with the single prohibited word `"spam"` and no owner. -/
def bdSpam : BotData := ⟨{"spam"}, none⟩

/-- Bot state with the single prohibited word `"spam"` and owner `1`. -/
def bdSpamOwned : BotData := ⟨{"spam"}, some 1⟩

/-- Bot state with no words and no owner. -/
def bdEmpty : BotData := ⟨∅, none⟩

/-- A message from user `7` whose text contains `"SPAM"`. -/
def msgSpam : Msg := ⟨10, "group", 7, "alice", "this is SPAM here"⟩

/-- A clean message from user `7`. -/
def msgClean : Msg := ⟨10, "group", 7, "alice", "hello"⟩

/-- Bot state with no words and owner `1`. -/
def bdEmptyOwned : BotData := ⟨∅, some 1⟩

/-- Issue `/add word` twice in a row as `uid` and keep the resulting bot
state. -/
def addTwice (bd : BotData) (uid : Int) (w : String) : BotData :=
  (add_command_handler (add_command_handler bd uid [w]).botData uid [w]).botData

/-! ### Helper lemmas -/

/-- When the join timestamp is recorded, `text_message_handler` is the
trust gate and scan with that timestamp. -/
theorem text_message_handler_join_found {cd : ChatData} (bd : BotData)
    (m : Msg) (now : Int) {t : Int}
    (h : cd.userJoinedAt m.fromUserId = some t) :
    text_message_handler cd bd m now = scanGate cd bd m now t := by
  unfold text_message_handler
  rw [h]

/-- When the join timestamp is missing, `text_message_handler` stores the
synthesized `now` under the stray integer key and runs the gate with
`t = now`. -/
theorem text_message_handler_join_missing {cd : ChatData} (bd : BotData)
    (m : Msg) (now : Int)
    (h : cd.userJoinedAt m.fromUserId = none) :
    text_message_handler cd bd m now =
      scanGate { cd with intKeyed := setKey cd.intKeyed m.fromUserId now }
        bd m now now := by
  unfold text_message_handler
  rw [h]

/-- Reading a `setKey`-updated map at the written key. -/
theorem setKey_same {α : Type} (f : Int → Option α) (k : Int) (v : α) :
    setKey f k v k = some v := by
  simp [setKey]

/-- Reading a `setKey`-updated map at another key. -/
theorem setKey_other {α : Type} (f : Int → Option α) {k q : Int} (v : α)
    (h : q ≠ k) : setKey f k v q = f q := by
  simp [setKey, h]


/-! ### C1 -/

/-- C1 (code bug): when a user has no recorded join timestamp, the claim
says the handler stores the synthesized `now` in the `joinedAt` map so
that a subsequent lookup returns it.  The code instead writes
`context.chat_data[user_id] = datetime.now(UTC)` (line 39), a top-level
integer key, leaving the `"user_joined_at"` sub-dict untouched: after the
handler runs for user `7`, the joinedAt lookup still returns `none` and
the synthesized timestamp sits under the stray integer key. -/
theorem C1_synthesized_timestamp_lost :
    (text_message_handler emptyChatData bdEmpty msgClean 1000).chatData.userJoinedAt 7
        = none ∧
    (text_message_handler emptyChatData bdEmpty msgClean 1000).chatData.intKeyed 7
        = some 1000 := by
  decide

/-! ### C2 -/

/-- C2 (counterexample): the claim says that at `now - joinedAt[user] ≥ 24h`
— "including the case of exactly 24 hours" — the user is trusted, no word
scan is performed and no state is mutated.  At exactly 24 hours
(`joinedAt = 0`, `now = 86400`) the code's strict comparison
`user_joined_at < now - timedelta(days=1)` is false, so the message IS
scanned: the prohibited word matches and moderation actions fire. -/
theorem C2_exact_24h_counterexample :
    cdA.userJoinedAt 7 = some 0 ∧
    oneDay ≤ 86400 - 0 ∧
    (text_message_handler cdA bdSpam msgSpam 86400).actions ≠ [] := by
  decide

/-- C2 (amended): if `now - joinedAt[user] > 24h` STRICTLY, the trust gate
classifies the user as trusted and short-circuits: no scan, no state
mutation.  At exactly 24 hours the user is not yet trusted (see the
counterexample). -/
theorem C2_trusted_strictly_after_one_day (cd : ChatData) (bd : BotData)
    (m : Msg) (now t : Int)
    (hJoin : cd.userJoinedAt m.fromUserId = some t)
    (hAge : oneDay < now - t) :
    text_message_handler cd bd m now = { chatData := cd, actions := [] } := by
  rw [text_message_handler_join_found bd m now hJoin]
  unfold scanGate
  rw [if_pos (show t < now - oneDay by omega)]

/-- C2 witness: user `7` joined at `0`; at `now = 86401` (one second past
24 hours) the handler returns with no actions and untouched state. -/
theorem C2_trusted_witness :
    cdA.userJoinedAt 7 = some 0 ∧
    oneDay < 86401 - 0 ∧
    text_message_handler cdA bdSpam msgSpam 86401 = { chatData := cdA, actions := [] } :=
  ⟨by decide, by decide,
   C2_trusted_strictly_after_one_day cdA bdSpam msgSpam 86401 0 (by decide) (by decide)⟩

/-! ### C3 -/

/-- C3: for a user who joined less than 24 hours ago, the trust gate
classifies them as trusted exactly when their tracked message count is at
least 3 (missing count defaulting to 0): at count ≥ 3 the handler
short-circuits (no actions, no count changed), while at count < 3 the
message is scanned — a prohibited-word match fires the delete and ban,
and a clean message increments the count.  In particular the message
arriving at count 3 (the user's 4th) is not scanned. -/
theorem C3_count_gate (cd : ChatData) (bd : BotData) (m : Msg) (now t : Int)
    (hJoin : cd.userJoinedAt m.fromUserId = some t)
    (hAge : now - t < oneDay) :
    (3 ≤ (cd.userMessageCount m.fromUserId).getD 0 →
       (text_message_handler cd bd m now).actions = [] ∧
       ∀ v, ((text_message_handler cd bd m now).chatData.userMessageCount v).getD 0
              = (cd.userMessageCount v).getD 0) ∧
    ((cd.userMessageCount m.fromUserId).getD 0 < 3 →
       ((∃ w ∈ bd.words, pyIn w (pyLower m.text) = true) →
          Action.deleteMessage m.chatId ∈ (text_message_handler cd bd m now).actions) ∧
       (¬ (∃ w ∈ bd.words, pyIn w (pyLower m.text) = true) →
          (text_message_handler cd bd m now).chatData.userMessageCount m.fromUserId
            = some ((cd.userMessageCount m.fromUserId).getD 0 + 1))) := by
  rw [text_message_handler_join_found bd m now hJoin]
  unfold scanGate
  rw [if_neg (show ¬ t < now - oneDay by omega)]
  constructor
  · intro h3
    rw [if_pos h3]
    refine ⟨rfl, fun v => ?_⟩
    by_cases hv : v = m.fromUserId
    · subst hv
      simp [setKey_same]
    · rw [show ({ cd with
            userMessageCount := setKey cd.userMessageCount m.fromUserId
              ((cd.userMessageCount m.fromUserId).getD 0) } : ChatData).userMessageCount
          = setKey cd.userMessageCount m.fromUserId
              ((cd.userMessageCount m.fromUserId).getD 0) from rfl,
        setKey_other _ _ hv]
  · intro h3
    rw [if_neg (show ¬ 3 ≤ (cd.userMessageCount m.fromUserId).getD 0 by omega)]
    constructor
    · intro hm
      rw [if_pos hm]
      cases bd.ownerId <;> simp
    · intro hm
      rw [if_neg hm]
      simp [setKey_same]

/-- C3 witness: user `7` joined at `0`, sends a clean message at
`now = 3600` with no tracked count (defaults to 0 < 3): the message is
scanned and, being clean, the count becomes 1. -/
theorem C3_count_gate_witness :
    cdA.userJoinedAt 7 = some 0 ∧
    3600 - 0 < oneDay ∧
    (cdA.userMessageCount 7).getD 0 < 3 ∧
    ¬ (∃ w ∈ bdSpam.words, pyIn w (pyLower msgClean.text) = true) ∧
    (text_message_handler cdA bdSpam msgClean 3600).chatData.userMessageCount 7
      = some ((cdA.userMessageCount 7).getD 0 + 1) :=
  ⟨by decide, by decide, by decide, by decide,
   ((C3_count_gate cdA bdSpam msgClean 3600 0 (by decide) (by decide)).2
      (by decide)).2 (by decide)⟩

/-! ### C4 -/

/-- C4: an unfamiliar user (join timestamp recorded less than 24 hours
ago, tracked count below 3) sending a message whose lower-cased text
contains no configured prohibited word gets their count incremented by
exactly one, every other user's count entry is untouched, the join map is
untouched, and no action (delete, ban, notification, reply, warning) is
emitted. -/
theorem C4_clean_message_increments (cd : ChatData) (bd : BotData) (m : Msg)
    (now t : Int)
    (hJoin : cd.userJoinedAt m.fromUserId = some t)
    (hAge : now - t < oneDay)
    (hCount : (cd.userMessageCount m.fromUserId).getD 0 < 3)
    (hClean : ¬ (∃ w ∈ bd.words, pyIn w (pyLower m.text) = true)) :
    (text_message_handler cd bd m now).actions = [] ∧
    (text_message_handler cd bd m now).chatData.userMessageCount m.fromUserId
      = some ((cd.userMessageCount m.fromUserId).getD 0 + 1) ∧
    (∀ v, v ≠ m.fromUserId →
      (text_message_handler cd bd m now).chatData.userMessageCount v
        = cd.userMessageCount v) ∧
    (text_message_handler cd bd m now).chatData.userJoinedAt = cd.userJoinedAt ∧
    (text_message_handler cd bd m now).chatData.intKeyed = cd.intKeyed := by
  rw [text_message_handler_join_found bd m now hJoin]
  unfold scanGate
  rw [if_neg (show ¬ t < now - oneDay by omega),
    if_neg (show ¬ 3 ≤ (cd.userMessageCount m.fromUserId).getD 0 by omega),
    if_neg hClean]
  refine ⟨rfl, by simp [setKey_same], fun v hv => ?_, rfl, rfl⟩
  show setKey (setKey cd.userMessageCount m.fromUserId
      ((cd.userMessageCount m.fromUserId).getD 0)) m.fromUserId
      ((cd.userMessageCount m.fromUserId).getD 0 + 1) v = cd.userMessageCount v
  rw [setKey_other _ _ hv, setKey_other _ _ hv]

/-- C4 witness: user `7` joined at `0`, no tracked count, clean message at
`now = 3600`: no actions, count becomes 1, user `8` untouched, join map
untouched. -/
theorem C4_clean_message_increments_witness :
    cdA.userJoinedAt 7 = some 0 ∧
    3600 - 0 < oneDay ∧
    (cdA.userMessageCount 7).getD 0 < 3 ∧
    ¬ (∃ w ∈ bdSpam.words, pyIn w (pyLower msgClean.text) = true) ∧
    ((text_message_handler cdA bdSpam msgClean 3600).actions = [] ∧
     (text_message_handler cdA bdSpam msgClean 3600).chatData.userMessageCount 7
       = some ((cdA.userMessageCount 7).getD 0 + 1) ∧
     (∀ v, v ≠ 7 →
       (text_message_handler cdA bdSpam msgClean 3600).chatData.userMessageCount v
         = cdA.userMessageCount v) ∧
     (text_message_handler cdA bdSpam msgClean 3600).chatData.userJoinedAt
       = cdA.userJoinedAt ∧
     (text_message_handler cdA bdSpam msgClean 3600).chatData.intKeyed
       = cdA.intKeyed) :=
  ⟨by decide, by decide, by decide, by decide,
   C4_clean_message_increments cdA bdSpam msgClean 3600 0
     (by decide) (by decide) (by decide) (by decide)⟩

/-! ### C5 -/

/-- C5: an unfamiliar user sending a message whose lower-cased text
contains some configured prohibited word triggers exactly one moderation
action — exactly one delete of the message, exactly one ban of the
sender, at most one owner notification — and every user's effective
message count (absent entries reading as 0) is unchanged by the
handler. -/
theorem C5_match_moderates_once (cd : ChatData) (bd : BotData) (m : Msg)
    (now t : Int)
    (hJoin : cd.userJoinedAt m.fromUserId = some t)
    (hAge : now - t < oneDay)
    (hCount : (cd.userMessageCount m.fromUserId).getD 0 < 3)
    (hMatch : ∃ w ∈ bd.words, pyIn w (pyLower m.text) = true) :
    (text_message_handler cd bd m now).actions.count (Action.deleteMessage m.chatId) = 1 ∧
    (text_message_handler cd bd m now).actions.count
      (Action.banChatMember m.chatId m.fromUserId) = 1 ∧
    (text_message_handler cd bd m now).actions.countP Action.isNotify ≤ 1 ∧
    ∀ v, ((text_message_handler cd bd m now).chatData.userMessageCount v).getD 0
           = (cd.userMessageCount v).getD 0 := by
  rw [text_message_handler_join_found bd m now hJoin]
  unfold scanGate
  rw [if_neg (show ¬ t < now - oneDay by omega),
    if_neg (show ¬ 3 ≤ (cd.userMessageCount m.fromUserId).getD 0 by omega),
    if_pos hMatch]
  refine ⟨?_, ?_, ?_, fun v => ?_⟩
  · cases bd.ownerId <;> simp [List.count_cons, Action.isNotify]
  · cases bd.ownerId <;> simp [List.count_cons, Action.isNotify]
  · cases bd.ownerId <;> simp [List.countP_cons, Action.isNotify]
  · by_cases hv : v = m.fromUserId
    · subst hv
      simp [setKey_same]
    · show ((setKey cd.userMessageCount m.fromUserId
          ((cd.userMessageCount m.fromUserId).getD 0)) v).getD 0
          = (cd.userMessageCount v).getD 0
      rw [setKey_other _ _ hv]

/-- C5 witness: user `7` joined at `0`, no tracked count, message
containing `"SPAM"` at `now = 3600`, bot owned by `1`: one delete, one
ban, at most one notification, all counts unchanged. -/
theorem C5_match_moderates_once_witness :
    cdA.userJoinedAt 7 = some 0 ∧
    3600 - 0 < oneDay ∧
    (cdA.userMessageCount 7).getD 0 < 3 ∧
    (∃ w ∈ bdSpamOwned.words, pyIn w (pyLower msgSpam.text) = true) ∧
    ((text_message_handler cdA bdSpamOwned msgSpam 3600).actions.count
       (Action.deleteMessage 10) = 1 ∧
     (text_message_handler cdA bdSpamOwned msgSpam 3600).actions.count
       (Action.banChatMember 10 7) = 1 ∧
     (text_message_handler cdA bdSpamOwned msgSpam 3600).actions.countP
       Action.isNotify ≤ 1 ∧
     ∀ v, ((text_message_handler cdA bdSpamOwned msgSpam 3600).chatData.userMessageCount v).getD 0
            = (cdA.userMessageCount v).getD 0) :=
  ⟨by decide, by decide, by decide, by decide,
   C5_match_moderates_once cdA bdSpamOwned msgSpam 3600 0
     (by decide) (by decide) (by decide) (by decide)⟩

/-! ### C6 -/

/-- C6: on a prohibited-word match the effects occur in this order — if an
owner is configured, a notification to the owner carrying the sender's
name, the chat title and the full offending message text, else a warning
that the bot has no owner — then the message delete, then the ban of the
sender.  Deletion and ban proceed whether or not an owner is
configured. -/
theorem C6_moderation_order (cd : ChatData) (bd : BotData) (m : Msg)
    (now t : Int)
    (hJoin : cd.userJoinedAt m.fromUserId = some t)
    (hAge : now - t < oneDay)
    (hCount : (cd.userMessageCount m.fromUserId).getD 0 < 3)
    (hMatch : ∃ w ∈ bd.words, pyIn w (pyLower m.text) = true) :
    (∀ o, bd.ownerId = some o →
       (text_message_handler cd bd m now).actions =
         [Action.sendMessage o m.fromUserName m.chatTitle m.text,
          Action.deleteMessage m.chatId,
          Action.banChatMember m.chatId m.fromUserId]) ∧
    (bd.ownerId = none →
       (text_message_handler cd bd m now).actions =
         [Action.logWarning "The bot does not have an owner",
          Action.deleteMessage m.chatId,
          Action.banChatMember m.chatId m.fromUserId]) := by
  rw [text_message_handler_join_found bd m now hJoin]
  unfold scanGate
  rw [if_neg (show ¬ t < now - oneDay by omega),
    if_neg (show ¬ 3 ≤ (cd.userMessageCount m.fromUserId).getD 0 by omega),
    if_pos hMatch]
  constructor
  · intro o ho
    rw [ho]
    rfl
  · intro ho
    rw [ho]
    rfl

/-- C6 witness: with owner `1` configured, the actions are exactly the
notification (with sender name, chat title and original-case text), the
delete and the ban, in that order. -/
theorem C6_moderation_order_witness :
    cdA.userJoinedAt 7 = some 0 ∧
    3600 - 0 < oneDay ∧
    (cdA.userMessageCount 7).getD 0 < 3 ∧
    (∃ w ∈ bdSpamOwned.words, pyIn w (pyLower msgSpam.text) = true) ∧
    bdSpamOwned.ownerId = some 1 ∧
    (text_message_handler cdA bdSpamOwned msgSpam 3600).actions =
      [Action.sendMessage 1 "alice" "group" "this is SPAM here",
       Action.deleteMessage 10,
       Action.banChatMember 10 7] :=
  ⟨by decide, by decide, by decide, by decide, by decide,
   (C6_moderation_order cdA bdSpamOwned msgSpam 3600 0
      (by decide) (by decide) (by decide) (by decide)).1 1 (by decide)⟩

/-! ### Guard lemmas for the admin commands -/

/-- With no owner recorded, the guard assigns the invoker as owner,
informs them, and lets the body run. -/
theorem admin_command_guard_unowned {bd : BotData} (uid : Int)
    (h : bd.ownerId = none) :
    admin_command_guard bd uid =
      { botData := { bd with ownerId := some uid },
        actions := [Action.replyText "You are now the owner of the bot."],
        runBody := true } := by
  simp [admin_command_guard, h]

/-- With the invoker equal to the recorded owner, the guard passes through
silently. -/
theorem admin_command_guard_owner {bd : BotData} {o : Int}
    (h : bd.ownerId = some o) :
    admin_command_guard bd o =
      { botData := bd, actions := [], runBody := true } := by
  simp [admin_command_guard, h]

/-- With a different user than the recorded owner invoking, the guard
rejects with a reply, mutates nothing and stops the body. -/
theorem admin_command_guard_reject {bd : BotData} {uid o : Int}
    (h : bd.ownerId = some o) (hne : uid ≠ o) :
    admin_command_guard bd uid =
      { botData := bd,
        actions := [Action.replyText "You are not the owner of the bot."],
        runBody := false } := by
  simp [admin_command_guard, h, hne]

/-- An owner-issued `/add word` inserts the lower-cased word and
confirms. -/
theorem add_command_handler_owner {bd : BotData} {uid : Int} (w : String)
    (h : bd.ownerId = some uid) :
    add_command_handler bd uid [w] =
      { botData := { bd with words := insert (pyLower w) bd.words },
        actions := [Action.replyText ("Added prohibited word: " ++ pyLower w)] } := by
  unfold add_command_handler
  rw [admin_command_guard_owner h]
  rfl

/-! ### C7 -/

/-- C7: the first admin command while no owner is recorded assigns the
invoker as owner and informs them; once an owner is recorded the guard
never changes it, and an admin command from any other user is rejected
with a reply while none of the three command handlers mutates any bot
state. -/
theorem C7_owner_assignment_and_rejection (bd : BotData) (uid : Int) :
    (bd.ownerId = none →
       (admin_command_guard bd uid).botData.ownerId = some uid ∧
       (admin_command_guard bd uid).runBody = true ∧
       Action.replyText "You are now the owner of the bot."
         ∈ (admin_command_guard bd uid).actions) ∧
    (∀ o, bd.ownerId = some o →
       (admin_command_guard bd uid).botData = bd ∧
       (uid ≠ o →
          (admin_command_guard bd uid).runBody = false ∧
          (admin_command_guard bd uid).actions
            = [Action.replyText "You are not the owner of the bot."] ∧
          (∀ args, (add_command_handler bd uid args).botData = bd) ∧
          (∀ args, (delete_command_handler bd uid args).botData = bd) ∧
          (list_command_handler bd uid).botData = bd)) := by
  constructor
  · intro h
    rw [admin_command_guard_unowned uid h]
    exact ⟨rfl, rfl, List.mem_singleton.mpr rfl⟩
  · intro o ho
    by_cases hne : uid = o
    · subst hne
      rw [admin_command_guard_owner ho]
      exact ⟨rfl, fun hc => absurd rfl hc⟩
    · rw [admin_command_guard_reject ho hne]
      refine ⟨rfl, fun _ => ⟨rfl, rfl, fun args => ?_, fun args => ?_, ?_⟩⟩
      · unfold add_command_handler
        rw [admin_command_guard_reject ho hne]
        rfl
      · unfold delete_command_handler
        rw [admin_command_guard_reject ho hne]
        rfl
      · unfold list_command_handler
        rw [admin_command_guard_reject ho hne]
        rfl

/-- C7 witness: with owner `1` recorded, user `2` issuing `/add spam` is
rejected: the guard does not run the body and the bot state (owner and
words) is exactly what it was. -/
theorem C7_owner_assignment_and_rejection_witness :
    bdSpamOwned.ownerId = some 1 ∧
    (2 : Int) ≠ 1 ∧
    (admin_command_guard bdSpamOwned 2).botData = bdSpamOwned ∧
    (admin_command_guard bdSpamOwned 2).runBody = false ∧
    (admin_command_guard bdSpamOwned 2).actions
      = [Action.replyText "You are not the owner of the bot."] ∧
    (add_command_handler bdSpamOwned 2 ["spam2"]).botData = bdSpamOwned :=
  ⟨by decide, by decide,
   ((C7_owner_assignment_and_rejection bdSpamOwned 2).2 1 (by decide)).1,
   (((C7_owner_assignment_and_rejection bdSpamOwned 2).2 1 (by decide)).2
      (by decide)).1,
   (((C7_owner_assignment_and_rejection bdSpamOwned 2).2 1 (by decide)).2
      (by decide)).2.1,
   (((C7_owner_assignment_and_rejection bdSpamOwned 2).2 1 (by decide)).2
      (by decide)).2.2.1 ["spam2"]⟩

/-! ### C9 -/

/-- C9: an owner-issued `/add` or `/delete` whose argument list does not
have exactly one element replies with the usage hint and performs no
mutation at all: the returned bot state is exactly the input state. -/
theorem C9_bad_arity_no_mutation (bd : BotData) (uid : Int) (args : List String)
    (hOwner : bd.ownerId = some uid) (hArity : args.length ≠ 1) :
    add_command_handler bd uid args
      = { botData := bd, actions := [Action.replyText "Usage: /add <word>"] } ∧
    delete_command_handler bd uid args
      = { botData := bd, actions := [Action.replyText "Usage: /delete <word>"] } := by
  constructor
  · unfold add_command_handler
    rw [admin_command_guard_owner hOwner]
    match args, hArity with
    | [], _ => rfl
    | [a], h => exact absurd rfl h
    | a :: b :: rest, _ => rfl
  · unfold delete_command_handler
    rw [admin_command_guard_owner hOwner]
    match args, hArity with
    | [], _ => rfl
    | [a], h => exact absurd rfl h
    | a :: b :: rest, _ => rfl

/-- C9 witness: owner `1` issuing `/add` with two arguments gets the usage
reply and the word set and owner are untouched. -/
theorem C9_bad_arity_no_mutation_witness :
    bdSpamOwned.ownerId = some 1 ∧
    (["a", "b"] : List String).length ≠ 1 ∧
    add_command_handler bdSpamOwned 1 ["a", "b"]
      = { botData := bdSpamOwned, actions := [Action.replyText "Usage: /add <word>"] } ∧
    delete_command_handler bdSpamOwned 1 ["a", "b"]
      = { botData := bdSpamOwned, actions := [Action.replyText "Usage: /delete <word>"] } :=
  ⟨by decide, by decide,
   (C9_bad_arity_no_mutation bdSpamOwned 1 ["a", "b"] (by decide) (by decide)).1,
   (C9_bad_arity_no_mutation bdSpamOwned 1 ["a", "b"] (by decide) (by decide)).2⟩

/-! ### C10 -/

/-- C10: when no owner is recorded, a first `/add word` both claims
ownership for the invoker and executes the command body in the same
invocation: the word is inserted lower-cased, and the user gets the
ownership reply followed by the add confirmation. -/
theorem C10_first_command_claims_and_runs (bd : BotData) (uid : Int)
    (w : String) (hOwner : bd.ownerId = none) :
    (admin_command_guard bd uid).runBody = true ∧
    add_command_handler bd uid [w]
      = { botData :=
            { bd with ownerId := some uid, words := insert (pyLower w) bd.words },
          actions := [Action.replyText "You are now the owner of the bot.",
                      Action.replyText ("Added prohibited word: " ++ pyLower w)] } := by
  constructor
  · rw [admin_command_guard_unowned uid hOwner]
  · unfold add_command_handler
    rw [admin_command_guard_unowned uid hOwner]
    rfl

/-- C10 witness: an unowned bot receiving `/add SpAm` from user `5` ends
up owned by `5` with `"spam"` in the word set, and replies with the
ownership message then the confirmation. -/
theorem C10_first_command_claims_and_runs_witness :
    bdEmpty.ownerId = none ∧
    add_command_handler bdEmpty 5 ["SpAm"]
      = { botData :=
            { bdEmpty with ownerId := some 5, words := insert (pyLower "SpAm") bdEmpty.words },
          actions := [Action.replyText "You are now the owner of the bot.",
                      Action.replyText ("Added prohibited word: " ++ pyLower "SpAm")] } :=
  ⟨by decide,
   (C10_first_command_claims_and_runs bdEmpty 5 "SpAm" (by decide)).2⟩

/-! ### C8 -/

/-- Adding the same word twice as the owner yields the same state as a
single add: `set.add` is idempotent. -/
theorem addTwice_eq {bd : BotData} {uid : Int} (w : String)
    (hOwner : bd.ownerId = some uid) :
    addTwice bd uid w = { bd with words := insert (pyLower w) bd.words } := by
  unfold addTwice
  rw [add_command_handler_owner w hOwner]
  show (add_command_handler { bd with words := insert (pyLower w) bd.words }
      uid [w]).botData = _
  rw [add_command_handler_owner w
    (show ({ bd with words := insert (pyLower w) bd.words } : BotData).ownerId
        = some uid from hOwner)]
  show ({ bd with
      words := insert (pyLower w) (insert (pyLower w) bd.words) } : BotData) = _
  rw [Finset.insert_idem]

/-- An owner-issued `/list` with a non-empty word set replies with the
words sorted and newline-joined. -/
theorem list_command_handler_owner_nonempty {bd : BotData} {uid : Int}
    (hOwner : bd.ownerId = some uid) (hne : bd.words ≠ ∅) :
    list_command_handler bd uid =
      { botData := bd,
        actions := [Action.replyText ("Prohibited words:\n" ++
          String.intercalate "\n" (bd.words.sort (· ≤ ·)))] } := by
  simp only [list_command_handler, admin_command_guard_owner hOwner]
  rw [if_neg (show ¬ (true = false) from fun hc => Bool.noConfusion hc),
    if_neg hne]
  rfl

/-- An owner-issued `/list` with an empty word set replies with the
"none" message. -/
theorem list_command_handler_owner_empty {bd : BotData} {uid : Int}
    (hOwner : bd.ownerId = some uid) (he : bd.words = ∅) :
    list_command_handler bd uid =
      { botData := bd,
        actions := [Action.replyText "No prohibited words."] } := by
  simp only [list_command_handler, admin_command_guard_owner hOwner]
  rw [if_neg (show ¬ (true = false) from fun hc => Bool.noConfusion hc),
    if_pos he]
  rfl

/-- C8: the owner-issued add command lower-cases its single argument and
inserts it idempotently — adding the same word twice gives the same word
set as adding it once; afterwards the list command's reply joins the
sorted word list, in which the lower-cased word occurs exactly once, and
the sorted list is lexicographically sorted; on an empty word set the
list command replies with the "none" message instead. -/
theorem C8_add_idempotent_list_sorted (bd : BotData) (uid : Int) (w : String)
    (hOwner : bd.ownerId = some uid) :
    (addTwice bd uid w).words = (add_command_handler bd uid [w]).botData.words ∧
    ((addTwice bd uid w).words.sort (· ≤ ·)).count (pyLower w) = 1 ∧
    List.Sorted (· ≤ ·) ((addTwice bd uid w).words.sort (· ≤ ·)) ∧
    (list_command_handler (addTwice bd uid w) uid).actions
      = [Action.replyText ("Prohibited words:\n" ++
          String.intercalate "\n" ((addTwice bd uid w).words.sort (· ≤ ·)))] ∧
    (∀ b : BotData, b.ownerId = some uid → b.words = ∅ →
       (list_command_handler b uid).actions
         = [Action.replyText "No prohibited words."]) := by
  refine ⟨?_, ?_, ?_, ?_, ?_⟩
  · rw [addTwice_eq w hOwner, add_command_handler_owner w hOwner]
  · rw [addTwice_eq w hOwner]
    exact List.count_eq_one_of_mem (Finset.sort_nodup _ _)
      ((Finset.mem_sort _).mpr (Finset.mem_insert_self _ _))
  · exact Finset.sort_sorted _ _
  · rw [addTwice_eq w hOwner,
      list_command_handler_owner_nonempty
        (show ({ bd with words := insert (pyLower w) bd.words } : BotData).ownerId
            = some uid from hOwner)
        (show ({ bd with words := insert (pyLower w) bd.words } : BotData).words ≠ ∅
          from Finset.insert_ne_empty _ _)]
  · intro b hb he
    rw [list_command_handler_owner_empty hb he]

/-- C8 witness: owner `1` of a bot with no words adds `"SpAm"` twice; the
word set equals the single-add set, the sorted list counts `"spam"` once
and is sorted, the list reply shows it, and a list on the empty set
replies the "none" message. -/
theorem C8_add_idempotent_list_sorted_witness :
    bdEmptyOwned.ownerId = some 1 ∧
    ((addTwice bdEmptyOwned 1 "SpAm").words
       = (add_command_handler bdEmptyOwned 1 ["SpAm"]).botData.words ∧
     ((addTwice bdEmptyOwned 1 "SpAm").words.sort (· ≤ ·)).count (pyLower "SpAm") = 1 ∧
     List.Sorted (· ≤ ·) ((addTwice bdEmptyOwned 1 "SpAm").words.sort (· ≤ ·)) ∧
     (list_command_handler (addTwice bdEmptyOwned 1 "SpAm") 1).actions
       = [Action.replyText ("Prohibited words:\n" ++
           String.intercalate "\n" ((addTwice bdEmptyOwned 1 "SpAm").words.sort (· ≤ ·)))] ∧
     (∀ b : BotData, b.ownerId = some 1 → b.words = ∅ →
        (list_command_handler b 1).actions
          = [Action.replyText "No prohibited words."])) :=
  ⟨by decide,
   C8_add_idempotent_list_sorted bdEmptyOwned 1 "SpAm" (by decide)⟩

end TelegramAntispam
